import Mathlib

/-!
Shallow embedding of `lib/mincer/template.js` from darthapo/mincer: the
abstract `Template` base class (constructor storing `file` and `data`
properties, the default `evaluate` that always throws, the process-wide
`Template.libs` registry, and the `Template.prototype.require` wrapper over
the ambient Node loader), together with theorems settling the specification
claims against it.
-/

namespace Mincer

/-- JavaScript runtime values, as far as this module observes them: `file`
and `data` are opaque to the base class and the registry stores opaque
module references, so only the handful of shapes this module can touch are
distinguished; object identity is a numeric reference. -/
inductive JSVal where
  | undefined : JSVal
  | nullVal : JSVal
  | boolean : Bool → JSVal
  | number : Int → JSVal
  | string : String → JSVal
  | objectRef : Nat → JSVal
deriving DecidableEq

/-- JavaScript string coercion `String(v)`, applied when a value is
concatenated into a string with `+` (as `this.file` is inside the message
built by `Template.prototype.require`). -/
def JSVal.jsString : JSVal → String
  | .undefined => "undefined"
  | .nullVal => "null"
  | .boolean b => if b then "true" else "false"
  | .number n => toString n
  | .string s => s
  | .objectRef _ => "[object Object]"

/-- A JavaScript `Error`: only its message is observed by this module. -/
structure JsError where
  message : String
deriving DecidableEq

/-- A property slot as installed by `Object.defineProperty`: the stored
value together with its `writable` flag. -/
structure PropDesc where
  value : JSVal
  writable : Bool
deriving DecidableEq

/-- Modelled from the spec: the `prop` helper lives in
`lib/mincer/common.js`, which is not among the sources at hand; per the
spec the constructor "stores `file` as a read-only attribute and `data` as
a mutable attribute", so `prop` installs a property slot whose writability
is the supplied option (`false` at the call site that passes no option). -/
def prop (value : JSVal) (writable : Bool) : PropDesc :=
  { value := value, writable := writable }

/-- Sloppy-mode JavaScript assignment `obj.p = v` on a property slot:
writable slots take the new value, non-writable slots silently keep the old
one. -/
def PropDesc.assign (p : PropDesc) (v : JSVal) : PropDesc :=
  if p.writable then { value := v, writable := p.writable } else p

/-- A `Template` instance: the two property slots installed by the
constructor, plus `this.constructor.name` — the `name` of the function that
constructed the instance, reachable through the prototype chain (`none`
models a constructor whose `name` property is `undefined`). -/
structure Template where
  ctorName : Option String
  data : PropDesc
  file : PropDesc
deriving DecidableEq

/-- The process-wide library registry object `Template.libs`, used as a map
from library names to module references. -/
def Libs : Type := String → Option JSVal

/-- `Template.libs = {}`: the registry as this module initializes it at
load time. -/
def Template.libs : Libs := fun _ => none

/-- Property read on the registry object: an absent key yields `undefined`
(a plain value, never an error). -/
def libsGet (m : Libs) (k : String) : JSVal :=
  match m k with
  | some v => v
  | none => .undefined

/-- Property write on the registry object. -/
def libsSet (m : Libs) (k : String) (v : JSVal) : Libs :=
  fun q => if q = k then some v else m q

/-- `new Template(file, data)`: installs `data` as a writable property and
`file` as a read-only one via `prop`, and touches nothing else — the
registry state is returned unchanged. `ctorName` is the `name` of the
concrete function invoked by `new` (for the base itself, `"Template"`). -/
def TemplateNew (libs : Libs) (ctorName : Option String) (file data : JSVal) :
    Template × Libs :=
  ({ ctorName := ctorName, data := prop data true, file := prop file false },
   libs)

/-- The JavaScript expression `this.constructor.name || ''`: `||` yields
its right operand exactly when the left one is falsy (`undefined`, or the
empty string in the case of a name). -/
def nameOrEmpty : Option String → String
  | some s => if s = "" then "" else s
  | none => ""

/-- `Template.prototype.evaluate(context, locals)`: unconditionally throws
`new Error((this.constructor.name || '') + '#evaluate() is not implemented.')`.
The arguments are ignored, and neither the instance nor the registry is
touched. -/
def Template.evaluate (t : Template) (context locals : JSVal) (libs : Libs) :
    Except JsError JSVal × Template × Libs :=
  (Except.error
    { message := nameOrEmpty t.ctorName ++ "#evaluate() is not implemented." },
   t, libs)

/-- The ambient Node `require`: loading a module may run arbitrary module
initialization code, so a loader both produces a result (the module
reference, or the error it throws) and may change the process-wide
registry. -/
def Loader : Type := Libs → String → Except JsError JSVal × Libs

/-- `Template.prototype.require(name)`: returns `require(name)` when the
ambient loader succeeds; when the loader throws anything, discards that
error and throws a fresh one built from `name` and the string-coerced
`this.file`. The instance itself is untouched; whatever the ambient loader
did to the registry persists on both paths. -/
def Template.require (loader : Loader) (t : Template) (name : String)
    (libs : Libs) : Except JsError JSVal × Template × Libs :=
  match loader libs name with
  | (Except.ok v, libs2) => (Except.ok v, t, libs2)
  | (Except.error _, libs2) =>
      (Except.error
        { message := "Cannot find module `" ++ name ++
                     "` required for file '" ++ t.file.value.jsString ++ "'" },
       t, libs2)

/-- The JavaScript heap, as far as `Template` instances are concerned: each
`new` expression creates a distinct fresh object; identifiers below `next`
are the allocated ones. -/
structure Heap where
  next : Nat
  objs : Nat → Option Template

/-- Allocation performed by a `new` expression: the instance lives at a
fresh identifier. -/
def Heap.alloc (h : Heap) (t : Template) : Nat × Heap :=
  (h.next,
   { next := h.next + 1,
     objs := fun i => if i = h.next then some t else h.objs i })

/-- The statement `x.data = v` executed on the object named by `id`
(property-slot assignment semantics, so a non-writable slot is kept). -/
def Heap.assignData (h : Heap) (id : Nat) (v : JSVal) : Heap :=
  { next := h.next,
    objs := fun i =>
      if i = id then
        (h.objs i).map (fun t => { t with data := t.data.assign v })
      else h.objs i }

/-- `needle` occurs contiguously inside `haystack`. -/
def substrOf (needle haystack : String) : Prop :=
  ∃ pre post, haystack = pre ++ needle ++ post

/-- Whatever the ambient loader does, `Template.prototype.require` hands the
instance back untouched. -/
theorem require_snd_template (loader : Loader) (t : Template) (name : String)
    (libs : Libs) : (Template.require loader t name libs).2.1 = t := by
  rcases hl : loader libs name with ⟨r, l2⟩
  cases r <;> simp [Template.require, hl]

/-- `Template.prototype.require` leaves the registry exactly as the ambient
loader left it, on both the success and the failure path. -/
theorem require_snd_libs (loader : Loader) (t : Template) (name : String)
    (libs : Libs) :
    (Template.require loader t name libs).2.2 = (loader libs name).2 := by
  rcases hl : loader libs name with ⟨r, l2⟩
  cases r <;> simp [Template.require, hl]

/-- C1: on any instance whose concrete type did not override `evaluate` (so
the base `Template.prototype.evaluate` runs), the call fails unconditionally:
for every context, locals and registry state it never returns a value, and
the error it throws has the constructing type's name in its message. -/
theorem evaluate_base_always_fails (t : Template) (context locals : JSVal)
    (libs : Libs) (name : String) (h : t.ctorName = some name) :
    (∀ v, (t.evaluate context locals libs).1 ≠ Except.ok v) ∧
    ∃ e, (t.evaluate context locals libs).1 = Except.error e ∧
      substrOf name e.message := by
  constructor
  · intro v hv
    simp [Template.evaluate] at hv
  · refine ⟨_, rfl, ?_⟩
    rw [h]
    by_cases hn : name = ""
    · subst hn
      exact ⟨nameOrEmpty (some ""), "#evaluate() is not implemented.",
        by simp⟩
    · have hname : nameOrEmpty (some name) = name := by
        simp [nameOrEmpty, hn]
      exact ⟨"", "#evaluate() is not implemented.",
        by simp [hname, String.empty_append]⟩

/-- Witness for C1: a concrete instance built by the base constructor. -/
theorem evaluate_base_always_fails_witness :
    (∀ v, (((TemplateNew Template.libs (some "Template") (JSVal.string "a.tpl")
        (JSVal.string "hello")).1.evaluate JSVal.undefined JSVal.undefined
        Template.libs).1 ≠ Except.ok v)) ∧
    ∃ e, (((TemplateNew Template.libs (some "Template") (JSVal.string "a.tpl")
        (JSVal.string "hello")).1.evaluate JSVal.undefined JSVal.undefined
        Template.libs).1 = Except.error e) ∧ substrOf "Template" e.message :=
  evaluate_base_always_fails _ _ _ _ "Template" rfl

/-- C2: `Template(file, data)` stores `file` as a read-only attribute and
`data` as a writable one, and both read back exactly the supplied values,
for every pair of argument values and any registry state: nothing is
validated or defaulted. -/
theorem construction_stores_attributes (libs : Libs) (ctorName : Option String)
    (file data : JSVal) :
    (TemplateNew libs ctorName file data).1.file.value = file ∧
    (TemplateNew libs ctorName file data).1.data.value = data ∧
    (TemplateNew libs ctorName file data).1.file.writable = false ∧
    (TemplateNew libs ctorName file data).1.data.writable = true :=
  ⟨rfl, rfl, rfl, rfl⟩

/-- C3: when the ambient loader cannot resolve `name` (it throws), `require`
fails with an error whose message contains both the dependency name and the
instance's `file`. -/
theorem require_missing_dependency (loader : Loader) (t : Template)
    (name : String) (libs libs2 : Libs) (err : JsError)
    (h : loader libs name = (Except.error err, libs2)) :
    ∃ e, (Template.require loader t name libs).1 = Except.error e ∧
      substrOf name e.message ∧ substrOf t.file.value.jsString e.message := by
  have hreq : (Template.require loader t name libs).1 = Except.error
      { message := "Cannot find module `" ++ name ++
                   "` required for file '" ++ t.file.value.jsString ++ "'" } := by
    simp [Template.require, h]
  refine ⟨_, hreq, ?_, ?_⟩
  · exact ⟨"Cannot find module `",
      "` required for file '" ++ t.file.value.jsString ++ "'",
      by simp [String.append_assoc]⟩
  · exact ⟨"Cannot find module `" ++ name ++ "` required for file '", "'",
      by simp [String.append_assoc]⟩

/-- Witness for C3: a loader that always throws, on the example file. -/
theorem require_missing_dependency_witness :
    ∃ e, (Template.require (fun l _ => (Except.error { message := "boom" }, l))
        (TemplateNew Template.libs (some "Template") (JSVal.string "a.tpl")
          (JSVal.string "hello")).1 "definitely-not-installed"
        Template.libs).1 = Except.error e ∧
      substrOf "definitely-not-installed" e.message ∧
      substrOf ((TemplateNew Template.libs (some "Template")
        (JSVal.string "a.tpl")
        (JSVal.string "hello")).1.file.value.jsString) e.message :=
  require_missing_dependency _ _ _ _ _ { message := "boom" } rfl

/-- C4: `file` never changes after construction: assigning to it is silently
ignored (the slot is non-writable), and both base operations hand the
instance back with `file` intact. -/
theorem file_immutable (libs : Libs) (ctorName : Option String)
    (file data v context locals : JSVal) (loader : Loader) (name : String)
    (libs2 libs3 : Libs) :
    ((TemplateNew libs ctorName file data).1.file.assign v) =
      (TemplateNew libs ctorName file data).1.file ∧
    ((TemplateNew libs ctorName file data).1.evaluate context locals
        libs2).2.1.file =
      (TemplateNew libs ctorName file data).1.file ∧
    (Template.require loader (TemplateNew libs ctorName file data).1 name
        libs3).2.1.file =
      (TemplateNew libs ctorName file data).1.file := by
  refine ⟨rfl, rfl, ?_⟩
  rw [require_snd_template]

/-- C5: when the ambient loader resolves `name` — returning the same cached
reference whatever the registry state, as the module cache guarantees —
`require` returns that reference unchanged, and a repeated call, made from
the state the first call left behind, returns the same reference. -/
theorem require_resolvable_idempotent (loader : Loader) (t : Template)
    (name : String) (v : JSVal) (libs : Libs)
    (h : ∀ l, (loader l name).1 = Except.ok v) :
    (Template.require loader t name libs).1 = Except.ok v ∧
    (Template.require loader t name
        (Template.require loader t name libs).2.2).1 = Except.ok v := by
  have key : ∀ l, (Template.require loader t name l).1 = Except.ok v := by
    intro l
    rcases hl : loader l name with ⟨r, l2⟩
    have hr : r = Except.ok v := by
      have hv := h l
      rw [hl] at hv
      exact hv
    subst hr
    simp [Template.require, hl]
  exact ⟨key libs, key _⟩

/-- Witness for C5: a loader that resolves `"ejs"` to a fixed module
reference, as the module cache does. -/
theorem require_resolvable_idempotent_witness :
    (Template.require (fun l _ => (Except.ok (JSVal.objectRef 7), l))
      (TemplateNew Template.libs (some "Template") (JSVal.string "a.tpl")
        (JSVal.string "hello")).1 "ejs" Template.libs).1 =
      Except.ok (JSVal.objectRef 7) ∧
    (Template.require (fun l _ => (Except.ok (JSVal.objectRef 7), l))
      (TemplateNew Template.libs (some "Template") (JSVal.string "a.tpl")
        (JSVal.string "hello")).1 "ejs"
      (Template.require (fun l _ => (Except.ok (JSVal.objectRef 7), l))
        (TemplateNew Template.libs (some "Template") (JSVal.string "a.tpl")
          (JSVal.string "hello")).1 "ejs" Template.libs).2.2).1 =
      Except.ok (JSVal.objectRef 7) :=
  require_resolvable_idempotent _ _ _ _ _ (fun _ => rfl)

/-- C6: the registry starts empty (every lookup on the fresh `Template.libs`
yields `undefined`), lookup of an absent key yields `undefined` rather than
failing, and reading a key that was set returns exactly the value written. -/
theorem libs_registry_semantics :
    (∀ k, libsGet Template.libs k = JSVal.undefined) ∧
    (∀ (m : Libs) k, m k = none → libsGet m k = JSVal.undefined) ∧
    (∀ (m : Libs) k v, libsGet (libsSet m k v) k = v) := by
  refine ⟨fun k => rfl, fun m k hab => ?_, fun m k v => ?_⟩
  · simp [libsGet, hab]
  · simp [libsGet, libsSet]

/-- Witness for C6: a concrete set-then-get round trip on the fresh
registry, together with a concrete absent-key lookup. -/
theorem libs_registry_semantics_witness :
    libsGet Template.libs "foo" = JSVal.undefined ∧
    libsGet (libsSet Template.libs "foo" (JSVal.objectRef 3)) "foo" =
      JSVal.objectRef 3 :=
  ⟨libs_registry_semantics.1 "foo",
   libs_registry_semantics.2.2 Template.libs "foo" (JSVal.objectRef 3)⟩

/-- C7: the base contract never mutates the registry: construction returns
the registry unchanged and produces exactly the instance determined by its
arguments (no other effect); the base `evaluate` returns the registry
unchanged; and `require` leaves it as the ambient loader left it, so when
the loaded module does not touch the registry, neither does `require`. -/
theorem base_contract_preserves_libs (libs : Libs) (ctorName : Option String)
    (file data : JSVal) (t : Template) (context locals : JSVal)
    (loader : Loader) (name : String)
    (hloader : (loader libs name).2 = libs) :
    (TemplateNew libs ctorName file data).2 = libs ∧
    (TemplateNew libs ctorName file data).1 =
      { ctorName := ctorName, data := prop data true,
        file := prop file false } ∧
    (t.evaluate context locals libs).2.2 = libs ∧
    (Template.require loader t name libs).2.2 = libs := by
  refine ⟨rfl, rfl, rfl, ?_⟩
  rw [require_snd_libs]
  exact hloader

/-- Witness for C7: a loader that throws without touching the registry. -/
theorem base_contract_preserves_libs_witness :
    (TemplateNew Template.libs (some "Template") (JSVal.string "a.tpl")
      (JSVal.string "hello")).2 = Template.libs ∧
    (TemplateNew Template.libs (some "Template") (JSVal.string "a.tpl")
      (JSVal.string "hello")).1 =
      { ctorName := some "Template", data := prop (JSVal.string "hello") true,
        file := prop (JSVal.string "a.tpl") false } ∧
    (((TemplateNew Template.libs (some "Template") (JSVal.string "a.tpl")
      (JSVal.string "hello")).1).evaluate JSVal.undefined JSVal.undefined
      Template.libs).2.2 = Template.libs ∧
    (Template.require (fun l _ => (Except.error { message := "x" }, l))
      (TemplateNew Template.libs (some "Template") (JSVal.string "a.tpl")
        (JSVal.string "hello")).1 "stylus" Template.libs).2.2 =
      Template.libs :=
  base_contract_preserves_libs Template.libs (some "Template")
    (JSVal.string "a.tpl") (JSVal.string "hello")
    (TemplateNew Template.libs (some "Template") (JSVal.string "a.tpl")
      (JSVal.string "hello")).1 JSVal.undefined JSVal.undefined
    (fun l _ => (Except.error { message := "x" }, l)) "stylus" rfl

/-- C8: two independently constructed instances with different `file` values
never interfere: after allocating both, assigning to the first one's `data`
leaves the second object exactly as allocated, its `data` and `file` still
reading back the values it was constructed with. -/
theorem instances_independent (h : Heap) (libs : Libs) (n1 n2 : Option String)
    (file1 data1 file2 data2 v : JSVal) (hne : file1 ≠ file2) :
    (((h.alloc (TemplateNew libs n1 file1 data1).1).2.alloc
        (TemplateNew libs n2 file2 data2).1).2.assignData
        (h.alloc (TemplateNew libs n1 file1 data1).1).1 v).objs
      ((h.alloc (TemplateNew libs n1 file1 data1).1).2.alloc
        (TemplateNew libs n2 file2 data2).1).1 =
      some (TemplateNew libs n2 file2 data2).1 ∧
    (TemplateNew libs n2 file2 data2).1.data.value = data2 ∧
    (TemplateNew libs n2 file2 data2).1.file.value = file2 := by
  refine ⟨?_, rfl, rfl⟩
  simp [Heap.alloc, Heap.assignData]

/-- Witness for C8: two concrete instances on a fresh heap. -/
theorem instances_independent_witness :
    ((((Heap.mk 0 (fun _ => none)).alloc (TemplateNew Template.libs
        (some "Template") (JSVal.string "a.tpl")
        (JSVal.string "hello")).1).2.alloc
        (TemplateNew Template.libs (some "Template") (JSVal.string "b.tpl")
          (JSVal.string "world")).1).2.assignData
        ((Heap.mk 0 (fun _ => none)).alloc (TemplateNew Template.libs
          (some "Template") (JSVal.string "a.tpl")
          (JSVal.string "hello")).1).1 (JSVal.string "mutated")).objs
      (((Heap.mk 0 (fun _ => none)).alloc (TemplateNew Template.libs
        (some "Template") (JSVal.string "a.tpl")
        (JSVal.string "hello")).1).2.alloc
        (TemplateNew Template.libs (some "Template") (JSVal.string "b.tpl")
          (JSVal.string "world")).1).1 =
      some (TemplateNew Template.libs (some "Template") (JSVal.string "b.tpl")
        (JSVal.string "world")).1 ∧
    (TemplateNew Template.libs (some "Template") (JSVal.string "b.tpl")
      (JSVal.string "world")).1.data.value = JSVal.string "world" ∧
    (TemplateNew Template.libs (some "Template") (JSVal.string "b.tpl")
      (JSVal.string "world")).1.file.value = JSVal.string "b.tpl" :=
  instances_independent (Heap.mk 0 (fun _ => none)) Template.libs
    (some "Template") (some "Template") (JSVal.string "a.tpl")
    (JSVal.string "hello") (JSVal.string "b.tpl") (JSVal.string "world")
    (JSVal.string "mutated") (by decide)

/-- C9: whatever error the ambient loader throws — a module that cannot be
found, or one that exists but fails during its own initialization — and
whatever it did to the registry before throwing, `require` replaces the
error with the missing-dependency diagnostic built only from the name and
the string-coerced `this.file`, discarding the original error entirely. -/
theorem require_discards_loader_error (loader : Loader) (t : Template)
    (name : String) (libs libs2 : Libs) (err : JsError)
    (h : loader libs name = (Except.error err, libs2)) :
    (Template.require loader t name libs).1 =
      Except.error { message := "Cannot find module `" ++ name ++
        "` required for file '" ++ t.file.value.jsString ++ "'" } := by
  simp [Template.require, h]

/-- Witness for C9: a loader whose module exists but throws a rich error
during initialization; the diagnostic mentions neither its message nor its
cause. -/
theorem require_discards_loader_error_witness :
    (Template.require
      (fun l _ => (Except.error { message := "SyntaxError: bad init" }, l))
      (TemplateNew Template.libs (some "Template") (JSVal.string "a.tpl")
        (JSVal.string "hello")).1 "broken-module" Template.libs).1 =
      Except.error { message := "Cannot find module `" ++ "broken-module" ++
        "` required for file '" ++
        ((TemplateNew Template.libs (some "Template") (JSVal.string "a.tpl")
          (JSVal.string "hello")).1.file.value.jsString) ++ "'" } :=
  require_discards_loader_error _ _ _ _ _
    { message := "SyntaxError: bad init" } rfl

/-- C10: when `this.constructor.name` is falsy (an anonymous constructor,
whether the name is absent or the empty string), the fallback makes the
message exactly "#evaluate() is not implemented.", with no type name. -/
theorem evaluate_anonymous_message (t : Template) (context locals : JSVal)
    (libs : Libs) (h : t.ctorName = none ∨ t.ctorName = some "") :
    (t.evaluate context locals libs).1 =
      Except.error { message := "#evaluate() is not implemented." } := by
  rcases h with h | h <;>
    simp [Template.evaluate, nameOrEmpty, h, String.empty_append]

/-- Witness for C10: an instance whose constructor has no name at all. -/
theorem evaluate_anonymous_message_witness :
    ((TemplateNew Template.libs none (JSVal.string "a.tpl")
        (JSVal.string "hello")).1.evaluate JSVal.undefined JSVal.undefined
      Template.libs).1 =
      Except.error { message := "#evaluate() is not implemented." } :=
  evaluate_anonymous_message _ _ _ _ (Or.inl rfl)

end Mincer
